import Mathlib

/-
Verification development for the care_odoo integration plugin.

Shallow embedding of the reconciliation tasks (care_odoo/tasks.py), the RPC
connector (care_odoo/connector/connector.py), the invoice save hook
(care_odoo/signals.py), the payment sync resource
(care_odoo/resources/account_move_payment/payment.py), the payment request
validator (care_odoo/resources/account_move_payment/spec.py) and the discount
extraction helper (care_odoo/resources/utils.py).
-/

namespace CareOdoo

/-! ## Python exception class model

The classes relevant to the retry and error-translation behaviour.
Parent links follow the Python class hierarchy: the requests library
exceptions derive from RequestException (itself an OSError subclass), and the
plugin errors in care_odoo/exceptions.py derive from DRF APIException.
requests JSONDecodeError derives from InvalidJSONError, a RequestException
subclass (requests 2.27 and later). -/

inductive ExcClass
  | pyException
  | osError
  | requestException
  | invalidJSONError
  | jsonDecodeError
  | reqConnectionError
  | reqTimeout
  | apiException
  | odooConnectionError
  | odooClientError
  | odooServerError
deriving DecidableEq

def parentOf : ExcClass → Option ExcClass
  | ExcClass.pyException => none
  | ExcClass.osError => some ExcClass.pyException
  | ExcClass.requestException => some ExcClass.osError
  | ExcClass.invalidJSONError => some ExcClass.requestException
  | ExcClass.jsonDecodeError => some ExcClass.invalidJSONError
  | ExcClass.reqConnectionError => some ExcClass.requestException
  | ExcClass.reqTimeout => some ExcClass.requestException
  | ExcClass.apiException => some ExcClass.pyException
  | ExcClass.odooConnectionError => some ExcClass.apiException
  | ExcClass.odooClientError => some ExcClass.apiException
  | ExcClass.odooServerError => some ExcClass.apiException

def isSubclassFuel : Nat → ExcClass → ExcClass → Bool
  | 0, _, _ => false
  | Nat.succ n, c, d =>
    if c = d then true
    else
      match parentOf c with
      | none => false
      | some p => isSubclassFuel n p d

/-- Python isinstance check lifted to exception classes. -/
def isSubclass (c d : ExcClass) : Bool := isSubclassFuel 12 c d

/-- The autoretry_for tuple on both shared_task decorators in
care_odoo/tasks.py: requests ConnectionError and requests Timeout
(imported from requests.exceptions at the top of tasks.py). -/
def autoretry_for : List ExcClass := [ExcClass.reqConnectionError, ExcClass.reqTimeout]

/-- Celery retries a failed task run automatically exactly when the raised
exception is an instance of a class listed in autoretry_for. -/
def celeryAutoRetries (c : ExcClass) : Bool := autoretry_for.any (fun d => isSubclass c d)

/-! ## RPC connector (care_odoo/connector/connector.py, OdooConnector.call_api)

The HTTP layer is modelled by the outcome of the single requests.request call:
either a response arrived (with a status code, a reason phrase and a body that
is or is not a JSON object), or the request failed at transport level. -/

/-- Body of an HTTP response as seen through response.json(): either a JSON
object carrying an optional top-level message field, or a body that is not
valid JSON (response.json() raises requests JSONDecodeError). -/
inductive RespBody
  | jsonObject (message : Option String)
  | nonJson
deriving DecidableEq

structure HttpResponse where
  status : Nat
  reason : String
  body : RespBody
deriving DecidableEq

inductive HttpOutcome
  | success (r : HttpResponse)
  | timeout
  | connFailure
  | otherRequestError (msg : String)
deriving DecidableEq

/-- The typed errors of care_odoo/exceptions.py raised by call_api. -/
inductive OdooError
  | connectionError (msg : String)
  | clientError (msg : String)
  | serverError (msg : String)
deriving DecidableEq

def OdooError.excClass : OdooError → ExcClass
  | OdooError.connectionError _ => ExcClass.odooConnectionError
  | OdooError.clientError _ => ExcClass.odooClientError
  | OdooError.serverError _ => ExcClass.odooServerError

/-- requests Response.ok: False exactly for status codes 400..599. -/
def response_ok (status : Nat) : Bool := decide (status < 400) || decide (600 ≤ status)

/-- Message text of the JSONDecodeError raised by response.json() on an empty
or non-JSON body; the connector re-raises it as
OdooConnectionError(str(e)). -/
def jsonDecodeFailureMsg : String := "Expecting value: line 1 column 1 (char 0)"

/-- Error-translation core of OdooConnector.call_api: response.json() is
evaluated first, then the ok check splits 5xx from 4xx using the message
field of the parsed body with the reason phrase as fallback. All
requests-level exceptions (Timeout, ConnectionError and any other
RequestException, which includes the JSONDecodeError raised by a non-JSON
body) are translated to OdooConnectionError. -/
def call_api (outcome : HttpOutcome) : Except OdooError RespBody :=
  match outcome with
  | HttpOutcome.timeout => Except.error (OdooError.connectionError "Odoo request timed out")
  | HttpOutcome.connFailure => Except.error (OdooError.connectionError "Could not connect to Odoo")
  | HttpOutcome.otherRequestError m => Except.error (OdooError.connectionError m)
  | HttpOutcome.success r =>
    match r.body with
    | RespBody.nonJson => Except.error (OdooError.connectionError jsonDecodeFailureMsg)
    | RespBody.jsonObject msg =>
      if response_ok r.status then Except.ok (RespBody.jsonObject msg)
      else
        let errorMsg := msg.getD r.reason
        if 500 ≤ r.status then Except.error (OdooError.serverError errorMsg)
        else Except.error (OdooError.clientError errorMsg)

/-! ## Reconciliation tasks (care_odoo/tasks.py) -/

/-- One outbound compensating call issued by a reconciliation task: the
endpoint together with the request payload (x_care_id and reason, the fields
of AccountPaymentCancelApiRequest and AccountMoveReturnApiRequest as the
tasks fill them). -/
structure OdooCall where
  endpoint : String
  x_care_id : String
  reason : Option String
deriving DecidableEq

inductive TaskEvent
  | dbCheck (which : Nat) (result : Bool)
  | sleepFor (seconds : Nat)
  | erpCall (c : OdooCall)
deriving DecidableEq

def TaskEvent.callOf : TaskEvent → Option OdooCall
  | TaskEvent.erpCall c => some c
  | _ => none

/-- The ERP calls contained in a task trace. -/
def erpCalls (events : List TaskEvent) : List OdooCall := events.filterMap TaskEvent.callOf

def RECHECK_DELAY_SECONDS : Nat := 5

/-- The status and action fields of the dict a task run returns. -/
structure TaskOutcome where
  status : String
  action : String
deriving DecidableEq

/-- Common body of verify_payment_exists_or_cleanup and
verify_invoice_exists_or_cleanup, which differ only in the host model
queried, the request class and the endpoint of the compensating call.
exists1 and exists2 are the results of the two host existence queries
(the second is run only after sleeping RECHECK_DELAY_SECONDS), and
cleanupOutcome is the HTTP outcome of the compensating call when one is
issued. On a call_api failure the task re-raises the exception. -/
def verifyExistsOrCleanup (endpoint : String) (external_id : String)
    (exists1 exists2 : Bool) (cleanupOutcome : HttpOutcome) :
    Except OdooError TaskOutcome × List TaskEvent :=
  if exists1 then
    (Except.ok ⟨"success", "none"⟩, [TaskEvent.dbCheck 1 true])
  else if exists2 then
    (Except.ok ⟨"success", "none"⟩,
      [TaskEvent.dbCheck 1 false, TaskEvent.sleepFor RECHECK_DELAY_SECONDS,
        TaskEvent.dbCheck 2 true])
  else
    let call : OdooCall := ⟨endpoint, external_id, some "Care transaction rollback cleanup"⟩
    let events := [TaskEvent.dbCheck 1 false, TaskEvent.sleepFor RECHECK_DELAY_SECONDS,
      TaskEvent.dbCheck 2 false, TaskEvent.erpCall call]
    match call_api cleanupOutcome with
    | Except.ok _ => (Except.ok ⟨"success", "cleanup"⟩, events)
    | Except.error e => (Except.error e, events)

def verify_payment_exists_or_cleanup (payment_external_id : String)
    (exists1 exists2 : Bool) (cleanupOutcome : HttpOutcome) :
    Except OdooError TaskOutcome × List TaskEvent :=
  verifyExistsOrCleanup "api/account/move/payment/cancel" payment_external_id
    exists1 exists2 cleanupOutcome

def verify_invoice_exists_or_cleanup (invoice_external_id : String)
    (exists1 exists2 : Bool) (cleanupOutcome : HttpOutcome) :
    Except OdooError TaskOutcome × List TaskEvent :=
  verifyExistsOrCleanup "api/account/move/return" invoice_external_id
    exists1 exists2 cleanupOutcome

/-! ## Invoice save hook (care_odoo/signals.py) -/

/-- Invoice status values of the host application referenced by the hook.
Modelled from the spec: the host enum InvoiceStatusOptions is part of the
care host application, not of this repository; the members used by the hook
(issued, balanced) plus the other statuses the spec names (draft, cancelled,
entered_in_error, voided) are included. -/
inductive InvoiceStatus
  | draft
  | issued
  | balanced
  | cancelled
  | entered_in_error
  | voided
deriving DecidableEq

def InvoiceStatus.str : InvoiceStatus → String
  | InvoiceStatus.draft => "draft"
  | InvoiceStatus.issued => "issued"
  | InvoiceStatus.balanced => "balanced"
  | InvoiceStatus.cancelled => "cancelled"
  | InvoiceStatus.entered_in_error => "entered_in_error"
  | InvoiceStatus.voided => "voided"

/-- Modelled from the spec: the host constant INVOICE_CANCELLED_STATUS (the
cancellation-class invoice statuses) is imported from the care host
application and is not part of this repository. The spec names voided and
cancelled as cancellation-class; entered_in_error is included as the
remaining cancellation-style status. It does not contain draft, issued or
balanced. -/
def INVOICE_CANCELLED_STATUS : List InvoiceStatus :=
  [InvoiceStatus.cancelled, InvoiceStatus.entered_in_error, InvoiceStatus.voided]

/-- One Invoice post_save invocation: the update_fields passed to save
(Django hands the signal None or a frozenset of field names, modelled as an
optional list), the status after the write, and the previous status captured
by the pre_save receiver (None for a newly created row). -/
structure InvoiceSaveEvent where
  update_fields : Option (List String)
  status : InvoiceStatus
  previous_status : Option InvoiceStatus
  external_id : String
deriving DecidableEq

/-- The guard update_fields and update_fields == set of number only:
a frozenset equals the one-element set exactly when it is nonempty and every
member is the string number, and an empty or absent update_fields is falsy. -/
def updateFieldsIsNumberOnly : Option (List String) → Bool
  | none => false
  | some fields => !fields.isEmpty && fields.all (fun f => decide (f = "number"))

inductive BillType
  | vendor
  | customer
deriving DecidableEq

/-- Observable actions of the invoice hook and of the sync resource calls it
makes: the outbound account-move create call (carrying its bill_type), the
write-back save of the ERP-assigned number (carrying the update_fields it is
scoped to), the scheduling of a delayed task, and the outbound return call. -/
inductive HookAction
  | accountMoveCall (x_care_id : String) (bill_type : BillType)
  | numberWriteBack (update_fields : Option (List String))
  | scheduleTask (task : String) (arg : String) (countdown : Nat)
  | accountMoveReturnCall (x_care_id : String) (reason : String)
deriving DecidableEq

def HookAction.isErpCall : HookAction → Bool
  | HookAction.accountMoveCall _ _ => true
  | HookAction.accountMoveReturnCall _ _ => true
  | _ => false

/-- Actions of OdooInvoiceResource.sync_invoice_to_odoo_api on the success
path: exactly one call to api/account/move with bill_type customer, then the
write-back invoice.save(update_fields of number only). -/
def sync_invoice_actions (external_id : String) : List HookAction :=
  [HookAction.accountMoveCall external_id BillType.customer,
    HookAction.numberWriteBack (some ["number"])]

/-- Actions of OdooInvoiceResource.sync_invoice_return_to_odoo_api: exactly
one call to api/account/move/return with the invoice status as reason. -/
def sync_invoice_return_actions (external_id : String) (reason : String) : List HookAction :=
  [HookAction.accountMoveReturnCall external_id reason]

/-- The Invoice post_save receiver save_fields_before_update of
care_odoo/signals.py: skip when update_fields is exactly the number field;
on status issued run the invoice sync and schedule
verify_invoice_exists_or_cleanup with the configured countdown; on a
cancellation-class status with previous status issued or balanced run the
return sync; otherwise do nothing. -/
def save_fields_before_update (cleanupDelay : Nat) (ev : InvoiceSaveEvent) : List HookAction :=
  if updateFieldsIsNumberOnly ev.update_fields then []
  else if ev.status = InvoiceStatus.issued then
    sync_invoice_actions ev.external_id ++
      [HookAction.scheduleTask "verify_invoice_exists_or_cleanup" ev.external_id cleanupDelay]
  else if ev.status ∈ INVOICE_CANCELLED_STATUS ∧
      (ev.previous_status = some InvoiceStatus.issued ∨
        ev.previous_status = some InvoiceStatus.balanced) then
    sync_invoice_return_actions ev.external_id ev.status.str
  else []

/-! ## Payment request validator
(care_odoo/resources/account_move_payment/spec.py) -/

inductive JournalType
  | cash
  | bank
  | card
  | credit
deriving DecidableEq

inductive PaymentMode
  | send
  | receive
deriving DecidableEq

inductive CustomerType
  | customer
  | vendor
deriving DecidableEq

/-- PartnerData of care_odoo/resources/res_partner/spec.py (fields the
payment flow fills; partner_type is always person there). -/
inductive PartnerType
  | person
  | company
deriving DecidableEq

structure PartnerData where
  name : String
  x_care_id : String
  email : String
  phone : String
  state : String
  partner_type : PartnerType
  agent : Bool
deriving DecidableEq

structure BillCounterData where
  x_care_id : String
  cashier_id : String
  counter_name : String
deriving DecidableEq

/-- Field values of AccountMovePaymentApiRequest before the model validator
runs (the pydantic field types are already satisfied by construction). -/
structure AccountMovePaymentApiRequest where
  x_care_id : String
  journal_x_care_id : Option String
  amount : Rat
  journal_input : JournalType
  payment_date : String
  payment_mode : PaymentMode
  partner_data : PartnerData
  customer_type : CustomerType
  counter_data : BillCounterData
  bank_reference : Option String
  payment_method_line_id : Option Int
deriving DecidableEq

/-- Python truthiness of the optional int field payment_method_line_id:
None and 0 are falsy. -/
def pmlTruthy : Option Int → Bool
  | none => false
  | some n => !decide (n = 0)

/-- Constructing the request runs the model validator
validate_payment_method_line: it raises exactly when journal_input is credit
and payment_method_line_id is falsy. -/
def mkAccountMovePaymentApiRequest (r : AccountMovePaymentApiRequest) :
    Except String AccountMovePaymentApiRequest :=
  if r.journal_input = JournalType.credit ∧ pmlTruthy r.payment_method_line_id = false then
    Except.error ("payment_method_line_id is required for credit (Care of Account) payments. " ++
      "Use GET /api/v1/odoo/payment-method-line/ to fetch available payment methods.")
  else Except.ok r

/-! ## Payment sync resource
(care_odoo/resources/account_move_payment/payment.py) -/

/-- Enum member lookup on JournalType as defined in
care_odoo/resources/account_move_payment/spec.py: only cash, bank, card and
credit are members; any other attribute access raises AttributeError. -/
def journalTypeMember : String → Option JournalType := fun s =>
  if s = "cash" then some JournalType.cash
  else if s = "bank" then some JournalType.bank
  else if s = "card" then some JournalType.card
  else if s = "credit" then some JournalType.credit
  else none

/-- The entries of the module-level dict literal
PAYMENT_METHOD_TO_JOURNAL_TYPE in payment.py, as pairs of the host payment
method code and the name of the JournalType member the literal references. -/
def paymentMethodJournalNamePairs : List (String × String) :=
  [("cash", "cash"), ("ccca", "card"), ("cchk", "bank"), ("cdac", "bank"),
    ("chck", "bank"), ("ddpo", "bank"), ("debc", "debit")]

/-- Evaluation of the dict literal: every value expression is an attribute
access on JournalType, evaluated left to right; a missing member makes the
whole literal raise AttributeError with the attribute name. -/
def buildPaymentMethodJournalMap : List (String × String) →
    Except String (List (String × JournalType))
  | [] => Except.ok []
  | p :: rest =>
    match journalTypeMember p.2 with
    | none => Except.error p.2
    | some j =>
      match buildPaymentMethodJournalMap rest with
      | Except.ok l => Except.ok ((p.1, j) :: l)
      | Except.error e => Except.error e

/-- The module-level constant PAYMENT_METHOD_TO_JOURNAL_TYPE of payment.py:
an Except because the literal itself may fail to evaluate at import time. -/
def PAYMENT_METHOD_TO_JOURNAL_TYPE : Except String (List (String × JournalType)) :=
  buildPaymentMethodJournalMap paymentMethodJournalNamePairs

/-- Value stored under payment_method_line_id inside the credit extension: in
the host extension map it is either an int or a string. -/
inductive PmlValue
  | intVal (n : Int)
  | strVal (s : String)
deriving DecidableEq

/-- Python truthiness of the stored value: 0 and the empty string are
falsy. -/
def PmlValue.truthy : PmlValue → Bool
  | PmlValue.intVal n => !decide (n = 0)
  | PmlValue.strVal s => !decide (s = "")

/-- Python int() applied to the stored value: an int passes through and a
string is parsed, raising ValueError when it is not a decimal integer. -/
def PmlValue.toIntPy : PmlValue → Option Int
  | PmlValue.intVal n => some n
  | PmlValue.strVal s => s.toInt?

/-- The payment_reconciliation_credit_extension entry of the payment
extensions map. A payment whose extensions map is falsy, or has no such key,
or an empty dict under it, is modelled with credit_extension none. -/
structure CreditExtensionValue where
  is_credit : Bool
  payment_method_line_id : Option PmlValue
deriving DecidableEq

/-- The fields of the host PaymentReconciliation row that
sync_payment_to_odoo_api reads. -/
structure PaymentReconciliationRec where
  external_id : String
  credit_extension : Option CreditExtensionValue
  is_credit_note : Bool
  issuer_type : Option String
  account_tags : List Nat
  method : String
  amount : Rat
  target_invoice : Option String
  reference_number : Option String
  payment_date : String
  location_external_id : String
  location_name : String
  created_by_external_id : String
  patient_name : String
  patient_external_id : String
  patient_phone : String
deriving DecidableEq

/-- The local failures sync_payment_to_odoo_api can raise before any ERP
call: the ValueError of the credit-on-refund guard and the DRF
ValidationError of the insurance checks and of pydantic construction. -/
inductive SyncError
  | valueError (msg : String)
  | validationError (msg : String)
deriving DecidableEq

/-- OdooPaymentResource._get_credit_extension_data: None unless the credit
extension is present with is_credit true; the credit-on-refund combination
raises ValueError; a missing, falsy or unparseable payment_method_line_id
yields None (the unparseable case only logs a warning). -/
def getCreditExtensionData (p : PaymentReconciliationRec) : Except SyncError (Option Int) :=
  match p.credit_extension with
  | none => Except.ok none
  | some ext =>
    if ext.is_credit = false then Except.ok none
    else if p.is_credit_note then
      Except.error (SyncError.valueError
        ("Credit payments (Care of Account) cannot be used for refunds. " ++
          "Refunds must use the original payment method (cash, card, bank)."))
    else
      match ext.payment_method_line_id with
      | none => Except.ok none
      | some v =>
        if v.truthy = false then Except.ok none
        else
          match v.toIntPy with
          | none => Except.ok none
          | some n => Except.ok (some n)

/-- OdooPaymentResource.has_insurance_tag: the tag cache is a map from a tag
database id to the cached external id string (None on a cache miss). -/
def has_insurance_tag (tagCache : Nat → Option String) (account_tags : List Nat)
    (insurance_tag_external_id : String) : Bool :=
  if insurance_tag_external_id = "" ∨ account_tags = [] then false
  else account_tags.any (fun t =>
    match tagCache t with
    | some cachedId => decide (cachedId = insurance_tag_external_id)
    | none => false)

/-- Modelled from the spec: the plugin configuration surface
(care_odoo.settings is not under src/); only the two options the claims need
are modelled, the insurance tag identifier (empty string when unset, which
is falsy) and the reconciliation delay in seconds. -/
structure OdooPluginSettings where
  CARE_INSURANCE_TAG_ID : String
  CARE_ODOO_CLEANUP_DELAY_SECONDS : Nat
deriving DecidableEq

/-- One outbound call of the payment sync, carrying the validated request. -/
structure PaymentCall where
  endpoint : String
  request : AccountMovePaymentApiRequest
deriving DecidableEq

/-- OdooPaymentResource.sync_payment_to_odoo_api. jmap stands for the lookup
in PAYMENT_METHOD_TO_JOURNAL_TYPE (kept as a parameter because the literal
defining that constant fails to evaluate, see the C8 theorem); erpPaymentId
is the id field of the ERP response on the success path. Returns the result
(the returned optional ERP id, or the raised error) together with the list
of outbound ERP calls made. -/
def sync_payment_to_odoo_api (jmap : String → Option JournalType)
    (settings : OdooPluginSettings) (tagCache : Nat → Option String)
    (erpPaymentId : Int) (p : PaymentReconciliationRec) :
    Except SyncError (Option Int) × List PaymentCall :=
  match getCreditExtensionData p with
  | Except.error e => (Except.error e, [])
  | Except.ok credit_data =>
    if p.issuer_type = some "insurer" then
      if settings.CARE_INSURANCE_TAG_ID = "" then
        (Except.error (SyncError.validationError
          "CARE_INSURANCE_TAG_ID must be configured when issuer is set on payment"), [])
      else if has_insurance_tag tagCache p.account_tags settings.CARE_INSURANCE_TAG_ID = false
      then
        (Except.error (SyncError.validationError
          "Account must have insurance tag for insurance payments"), [])
      else (Except.ok none, [])
    else
      let partner : PartnerData :=
        ⟨p.patient_name, p.patient_external_id, "", p.patient_phone, "kerala",
          PartnerType.person, false⟩
      let journal_type : JournalType :=
        match credit_data with
        | some _ => JournalType.credit
        | none => (jmap p.method).getD JournalType.bank
      let req : AccountMovePaymentApiRequest :=
        ⟨p.external_id, some (p.target_invoice.getD ""), p.amount, journal_type,
          p.payment_date,
          (if p.is_credit_note then PaymentMode.send else PaymentMode.receive),
          partner, CustomerType.customer,
          ⟨p.location_external_id, p.created_by_external_id, p.location_name⟩,
          p.reference_number, credit_data⟩
      match mkAccountMovePaymentApiRequest req with
      | Except.error msg => (Except.error (SyncError.validationError msg), [])
      | Except.ok r => (Except.ok (some erpPaymentId), [⟨"api/account/move/payment", r⟩])

/-! ## Discount extraction (care_odoo/resources/utils.py, get_all_discounts) -/

/-- The monetary component types of the host pricing engine that utils.py
matches on. -/
inductive MonetaryComponentType
  | base
  | discount
  | tax
  | informational
deriving DecidableEq

structure ComponentCode where
  code : String
  display : String
deriving DecidableEq

/-- One price component as get_all_discounts reads it: its type, its code
object and the optional factor and amount fields (None models an absent or
null field). -/
structure PriceComponent where
  monetary_component_type : MonetaryComponentType
  code : ComponentCode
  factor : Option Rat
  amount : Option Rat
deriving DecidableEq

/-- The two component lists of a charge item that get_all_discounts uses. -/
structure ChargeItemComponents where
  unit_price_components : List PriceComponent
  total_price_components : List PriceComponent
deriving DecidableEq

inductive DiscountType
  | amount
  | factor
deriving DecidableEq

structure DiscountGroup where
  x_care_id : String
  name : String
deriving DecidableEq

structure InvoiceDiscounts where
  name : String
  discount_group : DiscountGroup
  discount_type : DiscountType
  rate : Rat
  disc_amt : Rat
deriving DecidableEq

def isDiscountComponent (c : PriceComponent) : Bool :=
  decide (c.monetary_component_type = MonetaryComponentType.discount)

/-- Body of the per-discount loop of get_all_discounts: type is factor
exactly when the factor field is present, the rate comes from the matching
field, and the realized amount is resolved from the first discount component
of the total price components with the same code (0.0 when none). -/
def renderDiscount (total_components : List PriceComponent) (ud : PriceComponent) :
    InvoiceDiscounts :=
  let dname := ud.code.display
  let dcode := ud.code.code
  let dg : DiscountGroup := ⟨dcode, dname⟩
  let dtRate : DiscountType × Rat :=
    match ud.factor with
    | some f => (DiscountType.factor, f)
    | none => (DiscountType.amount, ud.amount.getD 0)
  let disc_amt : Rat :=
    match total_components.find? (fun c =>
      isDiscountComponent c && decide (c.code.code = dcode)) with
    | some c => c.amount.getD 0
    | none => 0
  ⟨dname, dg, dtRate.1, dtRate.2, disc_amt⟩

/-- get_all_discounts of utils.py (the charge item is given by its two
component lists; the Python None charge item case is outside the claims). -/
def get_all_discounts (ci : ChargeItemComponents) :
    Except String (Option (List InvoiceDiscounts)) :=
  if ci.unit_price_components.isEmpty then Except.ok none
  else
    let unit_discounts := ci.unit_price_components.filter isDiscountComponent
    if unit_discounts.isEmpty then Except.ok none
    else if 1 < unit_discounts.length then
      Except.error ("More than 1 discount per item is not allowed. Found " ++
        toString unit_discounts.length ++ " discounts.")
    else
      let discounts := unit_discounts.map (renderDiscount ci.total_price_components)
      if discounts.isEmpty then Except.ok none else Except.ok (some discounts)

/-! ## Claim theorems -/

/-- C1: for every run of the payment (resp. invoice) reconciliation task, a
compensating cancel/return call is issued if and only if the record is absent
on both existence checks; when issued it is exactly one call carrying the
original external id and the reason Care transaction rollback cleanup, the
second check happens only after the fixed recheck delay, and when the record
is found on either check the task is a no-op with zero ERP calls. -/
theorem C1_reconciliation_cleanup_iff (id : String) (e1 e2 : Bool) (co : HttpOutcome) :
    (erpCalls (verify_payment_exists_or_cleanup id e1 e2 co).2 =
        [⟨"api/account/move/payment/cancel", id, some "Care transaction rollback cleanup"⟩] ↔
      (e1 = false ∧ e2 = false))
    ∧ (erpCalls (verify_invoice_exists_or_cleanup id e1 e2 co).2 =
        [⟨"api/account/move/return", id, some "Care transaction rollback cleanup"⟩] ↔
      (e1 = false ∧ e2 = false))
    ∧ ((e1 = true ∨ e2 = true) →
      erpCalls (verify_payment_exists_or_cleanup id e1 e2 co).2 = [] ∧
      (verify_payment_exists_or_cleanup id e1 e2 co).1 = Except.ok ⟨"success", "none"⟩ ∧
      erpCalls (verify_invoice_exists_or_cleanup id e1 e2 co).2 = [] ∧
      (verify_invoice_exists_or_cleanup id e1 e2 co).1 = Except.ok ⟨"success", "none"⟩)
    ∧ (e1 = false → ∃ rest, (verify_payment_exists_or_cleanup id e1 e2 co).2 =
        TaskEvent.dbCheck 1 false :: TaskEvent.sleepFor RECHECK_DELAY_SECONDS :: rest) := by
  cases e1 <;> cases e2 <;>
    cases h : call_api co <;>
      simp [verify_payment_exists_or_cleanup, verify_invoice_exists_or_cleanup,
        verifyExistsOrCleanup, erpCalls, TaskEvent.callOf, h]

/-- C1 witness: with the record absent on both checks, the payment task
issues exactly the one compensating call. -/
theorem C1_reconciliation_cleanup_iff_witness :
    erpCalls (verify_payment_exists_or_cleanup "p-1" false false HttpOutcome.timeout).2 =
        [⟨"api/account/move/payment/cancel", "p-1", some "Care transaction rollback cleanup"⟩] ↔
      ((false : Bool) = false ∧ (false : Bool) = false) :=
  (C1_reconciliation_cleanup_iff "p-1" false false HttpOutcome.timeout).1

/-- C2: the claim says a transient network failure of the compensating call
is automatically retried by Celery. In the code, call_api translates every
requests-level Timeout and ConnectionError into OdooConnectionError, while
the autoretry_for tuple of the shared_task decorator lists only the requests
classes; OdooConnectionError is not a subclass of either, so the exception
that actually surfaces from a transient network failure is never matched and
the task is not retried, although the requests classes themselves would
be. -/
theorem C2_transient_network_failure_is_not_retried (id : String) (co : HttpOutcome)
    (h : co = HttpOutcome.timeout ∨ co = HttpOutcome.connFailure) :
    (∃ msg, (verify_payment_exists_or_cleanup id false false co).1 =
      Except.error (OdooError.connectionError msg))
    ∧ (∀ e : OdooError,
        (verify_payment_exists_or_cleanup id false false co).1 = Except.error e →
        celeryAutoRetries e.excClass = false)
    ∧ celeryAutoRetries ExcClass.odooConnectionError = false
    ∧ celeryAutoRetries ExcClass.reqTimeout = true
    ∧ celeryAutoRetries ExcClass.reqConnectionError = true := by
  rcases h with h | h <;> subst h <;>
    refine ⟨⟨_, rfl⟩, ?_, by decide, by decide, by decide⟩ <;>
    · intro e he
      simp [verify_payment_exists_or_cleanup, verifyExistsOrCleanup, call_api] at he
      rw [← he]
      decide

/-- C2 witness: the class of the error the task actually raises on a
transient network failure is not auto-retried. -/
theorem C2_transient_network_failure_is_not_retried_witness :
    celeryAutoRetries ExcClass.odooConnectionError = false :=
  (C2_transient_network_failure_is_not_retried "p-2" HttpOutcome.timeout (Or.inl rfl)).2.2.1

/-- C3 counterexample: a save carrying status issued whose update_fields is
exactly the number field performs no sync and schedules nothing, so the
action of the hook is not determined by the status transition alone. -/
theorem C3_counterexample_number_only_issued_save :
    save_fields_before_update 60
      ⟨some ["number"], InvoiceStatus.issued, some InvoiceStatus.draft, "inv-1"⟩ = [] := rfl

/-- C3 (amended): for every Invoice save not filtered out by the
number-only update_fields guard, the hook action is exactly determined by
the status transition: status issued gives one account-move call with
bill_type customer, the number write-back and one scheduled reconciliation
task with the configured delay; a cancellation-class status reached from
issued or balanced gives exactly one return call; every other transition
gives no action at all. -/
theorem C3_hook_action_by_transition (delay : Nat) (ev : InvoiceSaveEvent)
    (hnum : updateFieldsIsNumberOnly ev.update_fields = false) :
    (ev.status = InvoiceStatus.issued →
      save_fields_before_update delay ev =
        [HookAction.accountMoveCall ev.external_id BillType.customer,
          HookAction.numberWriteBack (some ["number"]),
          HookAction.scheduleTask "verify_invoice_exists_or_cleanup" ev.external_id delay])
    ∧ (ev.status ∈ INVOICE_CANCELLED_STATUS →
        (ev.previous_status = some InvoiceStatus.issued ∨
          ev.previous_status = some InvoiceStatus.balanced) →
        save_fields_before_update delay ev =
          [HookAction.accountMoveReturnCall ev.external_id ev.status.str])
    ∧ (ev.status ≠ InvoiceStatus.issued →
        ¬(ev.status ∈ INVOICE_CANCELLED_STATUS ∧
          (ev.previous_status = some InvoiceStatus.issued ∨
            ev.previous_status = some InvoiceStatus.balanced)) →
        save_fields_before_update delay ev = []) := by
  refine ⟨?_, ?_, ?_⟩
  · intro hst
    simp [save_fields_before_update, hnum, hst, sync_invoice_actions]
  · intro hc hprev
    have hni : ¬ ev.status = InvoiceStatus.issued := by
      intro h
      rw [h] at hc
      simp [INVOICE_CANCELLED_STATUS] at hc
    simp [save_fields_before_update, hnum, hni, hc, hprev, sync_invoice_return_actions]
  · intro hni hnc
    simp [save_fields_before_update, hnum, hni, hnc]

/-- C3 witness: a draft to issued transition with unrestricted update_fields
performs the sync, the write-back and the task scheduling. -/
theorem C3_hook_action_by_transition_witness :
    save_fields_before_update 30
        ⟨none, InvoiceStatus.issued, some InvoiceStatus.draft, "inv-3"⟩ =
      [HookAction.accountMoveCall "inv-3" BillType.customer,
        HookAction.numberWriteBack (some ["number"]),
        HookAction.scheduleTask "verify_invoice_exists_or_cleanup" "inv-3" 30] :=
  (C3_hook_action_by_transition 30
    ⟨none, InvoiceStatus.issued, some InvoiceStatus.draft, "inv-3"⟩ rfl).1 rfl

/-- C4: every Invoice save whose update_fields set is exactly the number
field makes the hook return immediately with no sync and no scheduled task,
and the write-back inside sync_invoice_to_odoo_api saves with update_fields
of exactly the number field, so the write-back never re-triggers the
hook. -/
theorem C4_number_writeback_never_retriggers (delay : Nat) (st : InvoiceStatus)
    (prev : Option InvoiceStatus) (eid : String) (fields : List String)
    (hne : fields ≠ []) (hall : ∀ f ∈ fields, f = "number") :
    save_fields_before_update delay ⟨some fields, st, prev, eid⟩ = []
    ∧ HookAction.numberWriteBack (some ["number"]) ∈ sync_invoice_actions eid := by
  constructor
  · have hguard : updateFieldsIsNumberOnly (some fields) = true := by
      simp [updateFieldsIsNumberOnly, hne, List.all_eq_true]
      intro f hf
      exact hall f hf
    simp [save_fields_before_update, hguard]
  · simp [sync_invoice_actions]

/-- C4 witness: the write-back save event itself, fed back through the hook,
performs nothing. -/
theorem C4_number_writeback_never_retriggers_witness :
    save_fields_before_update 30
      ⟨some ["number"], InvoiceStatus.issued, some InvoiceStatus.issued, "inv-4"⟩ = [] :=
  (C4_number_writeback_never_retriggers 30 InvoiceStatus.issued
    (some InvoiceStatus.issued) "inv-4" ["number"] (by simp) (by simp)).1

/-- C5 counterexample: an insurer payment whose account lacks the configured
insurance tag does make zero ERP calls, but the sync raises a
ValidationError instead of halting as a soft no-op. -/
theorem C5_counterexample_missing_tag_raises :
    sync_payment_to_odoo_api (fun _ => none) ⟨"TAG-1", 60⟩
      (fun t => if t = 7 then some "OTHER-TAG" else none) 1
      ⟨"pay-5", none, false, some "insurer", [7], "cash", 125, none, none,
        "2026-01-01", "loc-1", "Counter 1", "user-1", "Pat Doe", "patient-5", "999"⟩ =
      (Except.error (SyncError.validationError
        "Account must have insurance tag for insurance payments"), []) := rfl

/-- C5 (amended): for every insurer payment with the insurance tag
configured whose account does not carry that tag, the sync halts without any
ERP call, surfacing a ValidationError to the caller (a raised failure, not a
soft no-op). -/
theorem C5_insurer_without_tag_halts_with_validation_error
    (jmap : String → Option JournalType) (settings : OdooPluginSettings)
    (tagCache : Nat → Option String) (erpId : Int) (p : PaymentReconciliationRec)
    (cd : Option Int)
    (hiss : p.issuer_type = some "insurer")
    (hcfg : settings.CARE_INSURANCE_TAG_ID ≠ "")
    (htag : has_insurance_tag tagCache p.account_tags settings.CARE_INSURANCE_TAG_ID = false)
    (hok : getCreditExtensionData p = Except.ok cd) :
    sync_payment_to_odoo_api jmap settings tagCache erpId p =
      (Except.error (SyncError.validationError
        "Account must have insurance tag for insurance payments"), []) := by
  simp [sync_payment_to_odoo_api, hok, hiss, hcfg, htag]

/-- C5 witness: a concrete insurer payment without the tag. -/
theorem C5_insurer_without_tag_halts_with_validation_error_witness :
    sync_payment_to_odoo_api (fun _ => none) ⟨"TAG-1", 60⟩
      (fun t => if t = 9 then some "OTHER-TAG" else none) 1
      ⟨"pay-5b", none, false, some "insurer", [9], "cash", 125, none, none,
        "2026-01-01", "loc-1", "Counter 1", "user-1", "Pat Doe", "patient-5", "999"⟩ =
      (Except.error (SyncError.validationError
        "Account must have insurance tag for insurance payments"), []) :=
  C5_insurer_without_tag_halts_with_validation_error (fun _ => none) ⟨"TAG-1", 60⟩
    (fun t => if t = 9 then some "OTHER-TAG" else none) 1
    ⟨"pay-5b", none, false, some "insurer", [9], "cash", 125, none, none,
      "2026-01-01", "loc-1", "Counter 1", "user-1", "Pat Doe", "patient-5", "999"⟩
    none rfl (by decide) rfl rfl

/-- C6: for every insurer payment with the insurance tag configured whose
account carries the tag (and whose credit-extension validation passes), the
sync returns None and makes zero outbound ERP calls. -/
theorem C6_insurer_with_tag_soft_skips
    (jmap : String → Option JournalType) (settings : OdooPluginSettings)
    (tagCache : Nat → Option String) (erpId : Int) (p : PaymentReconciliationRec)
    (cd : Option Int)
    (hiss : p.issuer_type = some "insurer")
    (hcfg : settings.CARE_INSURANCE_TAG_ID ≠ "")
    (htag : has_insurance_tag tagCache p.account_tags settings.CARE_INSURANCE_TAG_ID = true)
    (hok : getCreditExtensionData p = Except.ok cd) :
    sync_payment_to_odoo_api jmap settings tagCache erpId p = (Except.ok none, []) := by
  simp [sync_payment_to_odoo_api, hok, hiss, hcfg, htag]

/-- C6 witness: a concrete correctly-configured insurer payment. -/
theorem C6_insurer_with_tag_soft_skips_witness :
    sync_payment_to_odoo_api (fun _ => none) ⟨"TAG-1", 60⟩
      (fun t => if t = 7 then some "TAG-1" else none) 1
      ⟨"pay-6", none, false, some "insurer", [7], "cash", 125, none, none,
        "2026-01-01", "loc-1", "Counter 1", "user-1", "Pat Doe", "patient-6", "999"⟩ =
      (Except.ok none, []) :=
  C6_insurer_with_tag_soft_skips (fun _ => none) ⟨"TAG-1", 60⟩
    (fun t => if t = 7 then some "TAG-1" else none) 1
    ⟨"pay-6", none, false, some "insurer", [7], "cash", 125, none, none,
      "2026-01-01", "loc-1", "Counter 1", "user-1", "Pat Doe", "patient-6", "999"⟩
    none rfl (by decide) rfl rfl

/-- C7 counterexample: with journal_input credit and payment_method_line_id
present but equal to 0, construction fails, because the validator tests
Python falsiness rather than absence. -/
theorem C7_counterexample_zero_line_id_present_fails :
    mkAccountMovePaymentApiRequest
      ⟨"pay-7", none, 10, JournalType.credit, "2026-01-01", PaymentMode.receive,
        ⟨"Pat Doe", "patient-7", "", "999", "kerala", PartnerType.person, false⟩,
        CustomerType.customer, ⟨"loc-1", "user-1", "Counter 1"⟩, none, some 0⟩ =
      Except.error
        ("payment_method_line_id is required for credit (Care of Account) payments. " ++
          "Use GET /api/v1/odoo/payment-method-line/ to fetch available payment methods.") := rfl

/-- C7 (amended): construction of AccountMovePaymentApiRequest fails
validation if and only if journal_input is credit and
payment_method_line_id is absent or zero (Python-falsy); for non-credit
journal types construction always succeeds. -/
theorem C7_credit_requires_truthy_payment_method_line (r : AccountMovePaymentApiRequest) :
    ((∃ msg, mkAccountMovePaymentApiRequest r = Except.error msg) ↔
      (r.journal_input = JournalType.credit ∧
        (r.payment_method_line_id = none ∨ r.payment_method_line_id = some 0)))
    ∧ (r.journal_input ≠ JournalType.credit →
        mkAccountMovePaymentApiRequest r = Except.ok r) := by
  have hchar : pmlTruthy r.payment_method_line_id = false ↔
      (r.payment_method_line_id = none ∨ r.payment_method_line_id = some 0) := by
    rcases hp : r.payment_method_line_id with _ | n <;> simp [pmlTruthy]
  constructor
  · constructor
    · rintro ⟨msg, hmsg⟩
      by_cases h : r.journal_input = JournalType.credit ∧
          pmlTruthy r.payment_method_line_id = false
      · exact ⟨h.1, hchar.mp h.2⟩
      · rw [mkAccountMovePaymentApiRequest, if_neg h] at hmsg
        exact absurd hmsg (by simp)
    · rintro ⟨hj, hp⟩
      rw [mkAccountMovePaymentApiRequest, if_pos ⟨hj, hchar.mpr hp⟩]
      exact ⟨_, rfl⟩
  · intro hj
    rw [mkAccountMovePaymentApiRequest, if_neg]
    rintro ⟨h1, _⟩
    exact hj h1

/-- C7 witness: a concrete non-credit request without a
payment_method_line_id constructs successfully. -/
theorem C7_credit_requires_truthy_payment_method_line_witness :
    mkAccountMovePaymentApiRequest
      ⟨"pay-7b", none, 10, JournalType.cash, "2026-01-01", PaymentMode.receive,
        ⟨"Pat Doe", "patient-7", "", "999", "kerala", PartnerType.person, false⟩,
        CustomerType.customer, ⟨"loc-1", "user-1", "Counter 1"⟩, none, none⟩ =
      Except.ok
      ⟨"pay-7b", none, 10, JournalType.cash, "2026-01-01", PaymentMode.receive,
        ⟨"Pat Doe", "patient-7", "", "999", "kerala", PartnerType.person, false⟩,
        CustomerType.customer, ⟨"loc-1", "user-1", "Counter 1"⟩, none, none⟩ :=
  (C7_credit_requires_truthy_payment_method_line
    ⟨"pay-7b", none, 10, JournalType.cash, "2026-01-01", PaymentMode.receive,
      ⟨"Pat Doe", "patient-7", "", "999", "kerala", PartnerType.person, false⟩,
      CustomerType.customer, ⟨"loc-1", "user-1", "Counter 1"⟩, none, none⟩).2 (by decide)

/-- C8: the claim describes the non-credit fallback journal lookup, but the
module-level dict literal PAYMENT_METHOD_TO_JOURNAL_TYPE references the
enum member debit, which JournalType does not define, so evaluating the
literal raises AttributeError at import time and the described lookup can
never run. -/
theorem C8_journal_map_literal_fails_to_evaluate :
    PAYMENT_METHOD_TO_JOURNAL_TYPE = Except.error "debit" ∧
      journalTypeMember "debit" = none := ⟨rfl, rfl⟩

/-- C9: for every charge item with exactly one discount component among its
unit price components, extraction succeeds with exactly that discount, whose
type is factor if and only if the factor field is present, otherwise amount;
with more than one discount component extraction raises a validation
error. -/
theorem C9_discount_extraction (ci : ChargeItemComponents) :
    (∀ c : PriceComponent,
      ci.unit_price_components.filter isDiscountComponent = [c] →
      get_all_discounts ci =
        Except.ok (some [renderDiscount ci.total_price_components c]) ∧
      ((renderDiscount ci.total_price_components c).discount_type = DiscountType.factor ↔
        c.factor ≠ none))
    ∧ (1 < (ci.unit_price_components.filter isDiscountComponent).length →
      ∃ msg, get_all_discounts ci = Except.error msg) := by
  constructor
  · intro c hc
    have hne : ci.unit_price_components.isEmpty = false := by
      cases hl : ci.unit_price_components with
      | nil => rw [hl] at hc; simp at hc
      | cons a l => simp
    constructor
    · simp [get_all_discounts, hne, hc]
    · cases hf : c.factor <;> simp [renderDiscount, hf]
  · intro hlen
    have hfne : ci.unit_price_components.filter isDiscountComponent ≠ [] := by
      intro h
      rw [h] at hlen
      simp at hlen
    have hne : ci.unit_price_components.isEmpty = false := by
      cases hl : ci.unit_price_components with
      | nil => rw [hl] at hfne; simp at hfne
      | cons a l => simp
    have hfe : (ci.unit_price_components.filter isDiscountComponent).isEmpty = false := by
      cases hq : ci.unit_price_components.filter isDiscountComponent with
      | nil => exact absurd hq hfne
      | cons a l => simp
    have hgoal : get_all_discounts ci =
        Except.error ("More than 1 discount per item is not allowed. Found " ++
          toString (ci.unit_price_components.filter isDiscountComponent).length ++
          " discounts.") := by
      simp [get_all_discounts, hne, hfe, hlen]
    exact ⟨_, hgoal⟩

/-- C9 witness: a charge item with one factor discount among two components
extracts exactly that discount with type factor. -/
theorem C9_discount_extraction_witness :
    get_all_discounts
      ⟨[⟨MonetaryComponentType.base, ⟨"b", "Base"⟩, none, some 100⟩,
          ⟨MonetaryComponentType.discount, ⟨"d1", "Disc 1"⟩, some (1 / 10), none⟩],
        [⟨MonetaryComponentType.discount, ⟨"d1", "Disc 1"⟩, none, some 10⟩]⟩ =
      Except.ok (some [renderDiscount
        [⟨MonetaryComponentType.discount, ⟨"d1", "Disc 1"⟩, none, some 10⟩]
        ⟨MonetaryComponentType.discount, ⟨"d1", "Disc 1"⟩, some (1 / 10), none⟩]) :=
  ((C9_discount_extraction
      ⟨[⟨MonetaryComponentType.base, ⟨"b", "Base"⟩, none, some 100⟩,
          ⟨MonetaryComponentType.discount, ⟨"d1", "Disc 1"⟩, some (1 / 10), none⟩],
        [⟨MonetaryComponentType.discount, ⟨"d1", "Disc 1"⟩, none, some 10⟩]⟩).1
    ⟨MonetaryComponentType.discount, ⟨"d1", "Disc 1"⟩, some (1 / 10), none⟩ rfl).1

/-- C10 counterexample: a 4xx response whose body is not JSON raises
OdooConnectionError (the JSONDecodeError from response.json, parsed before
the status check, is a RequestException and is caught by the generic
handler), not ClientError as the claim states for every 4xx response. -/
theorem C10_counterexample_nonjson_4xx :
    call_api (HttpOutcome.success ⟨400, "Bad Request", RespBody.nonJson⟩) =
      Except.error (OdooError.connectionError jsonDecodeFailureMsg) := rfl

/-- C10 (amended): for every HTTP response whose body parses as a JSON
object, a 4xx status raises ClientError and a 5xx status raises ServerError,
both carrying the message field of the body or, when absent, the reason
phrase; a timeout or connection failure raises ConnectionError, and a
response body that is not valid JSON also surfaces as ConnectionError
regardless of status, because the body is parsed before the status check. -/
theorem C10_status_error_translation (s : Nat) (reason : String) (m : Option String) :
    (400 ≤ s → s < 500 →
      call_api (HttpOutcome.success ⟨s, reason, RespBody.jsonObject m⟩) =
        Except.error (OdooError.clientError (m.getD reason)))
    ∧ (500 ≤ s → s < 600 →
      call_api (HttpOutcome.success ⟨s, reason, RespBody.jsonObject m⟩) =
        Except.error (OdooError.serverError (m.getD reason)))
    ∧ call_api HttpOutcome.timeout =
        Except.error (OdooError.connectionError "Odoo request timed out")
    ∧ call_api HttpOutcome.connFailure =
        Except.error (OdooError.connectionError "Could not connect to Odoo")
    ∧ (∀ st r2, call_api (HttpOutcome.success ⟨st, r2, RespBody.nonJson⟩) =
        Except.error (OdooError.connectionError jsonDecodeFailureMsg)) := by
  refine ⟨?_, ?_, rfl, rfl, fun _ _ => rfl⟩
  · intro h1 h2
    have hok : response_ok s = false := by
      simp only [response_ok, Bool.or_eq_false_iff, decide_eq_false_iff_not]
      omega
    have h5 : ¬ 500 ≤ s := by omega
    simp [call_api, hok, h5]
  · intro h1 h2
    have hok : response_ok s = false := by
      simp only [response_ok, Bool.or_eq_false_iff, decide_eq_false_iff_not]
      omega
    simp [call_api, hok, h1]

/-- C10 witness: a 404 with a JSON message body raises ClientError carrying
that message. -/
theorem C10_status_error_translation_witness :
    call_api (HttpOutcome.success ⟨404, "Not Found", RespBody.jsonObject (some "no move")⟩) =
      Except.error (OdooError.clientError "no move") :=
  (C10_status_error_translation 404 "Not Found" (some "no move")).1 (by omega) (by omega)

end CareOdoo
